import Mathlib

/-!
Verification of the Ball-on-a-plate control system against its
natural-language specification.

The development shallowly embeds the C sources: 32-bit floats (`r32`) are
modelled as exact rationals (`ℚ`), machine integers as `ℕ`, stateful C
functions as pure state-passing functions, and fallible operations as
`Option`.  Each definition mirrors one C function of the repository, named
after it.
-/

namespace Boap

/-! ## PID regulator (src/plant/components/boap_pid/boap_pid.c)

`struct SBoapPid` holds the six tuning parameters and the five fields of
transient state, all `r32` in the source, modelled as `ℚ` here. -/

structure SBoapPid where
  SetPoint : ℚ
  ProportionalGain : ℚ
  IntegralGain : ℚ
  DerivativeGain : ℚ
  SamplingPeriod : ℚ
  SaturationThreshold : ℚ
  PreviousError : ℚ
  PreviousMeasurement : ℚ
  RunningSum : ℚ
  PreviousOutputUnbounded : ℚ
  PreviousOutputBounded : ℚ
  deriving Repr, DecidableEq

/-- `ZERO_IF_SAME_SIGN(x, y)` from boap_common.h line 68:
`( ( (x) * (y) ) <= 0.0f )` — a C boolean, hence 1 when the product is
non-positive and 0 otherwise. -/
def ZERO_IF_SAME_SIGN (x y : ℚ) : ℚ :=
  if x * y ≤ 0 then 1 else 0

/-- `BoapPidCreate` (boap_pid.c lines 39-62), on the successful-allocation
path: saves the six tuning parameters and zeroes the internal state. -/
def BoapPidCreate (sp kp ki kd ts sat : ℚ) : SBoapPid :=
  { SetPoint := sp
    ProportionalGain := kp
    IntegralGain := ki
    DerivativeGain := kd
    SamplingPeriod := ts
    SaturationThreshold := sat
    PreviousError := 0
    PreviousMeasurement := 0
    RunningSum := 0
    PreviousOutputUnbounded := 0
    PreviousOutputBounded := 0 }

/-- `BoapPidGetSample` (boap_pid.c lines 69-104): returns the updated
regulator state together with the (saturated) output sample. -/
def BoapPidGetSample (handle : SBoapPid) (pv : ℚ) : SBoapPid × ℚ :=
  let error := handle.SetPoint - pv
  let integralStep := handle.IntegralGain * handle.SamplingPeriod * (1/2) * (error + handle.PreviousError)
  let outputP := handle.ProportionalGain * error
  let outputPD := outputP + -handle.DerivativeGain * (pv - handle.PreviousMeasurement) / handle.SamplingPeriod
  let runningSum := handle.RunningSum +
    ZERO_IF_SAME_SIGN (handle.PreviousOutputUnbounded - handle.PreviousOutputBounded) integralStep * integralStep
  let outputPID := outputPD + runningSum
  let outputSat :=
    if outputPID > handle.SaturationThreshold then handle.SaturationThreshold
    else if outputPID < -handle.SaturationThreshold then -handle.SaturationThreshold
    else outputPID
  ({ handle with
      PreviousError := error
      PreviousMeasurement := pv
      RunningSum := runningSum
      PreviousOutputUnbounded := outputPID
      PreviousOutputBounded := outputSat },
   outputSat)

/-- `BoapPidReset` (boap_pid.c lines 110-117): zeroes the transient state,
leaving the tuning parameters untouched. -/
def BoapPidReset (handle : SBoapPid) : SBoapPid :=
  { handle with
      PreviousError := 0
      PreviousMeasurement := 0
      PreviousOutputBounded := 0
      PreviousOutputUnbounded := 0
      RunningSum := 0 }

/-- The trapezoidal integral step `ki * ts * 0.5f * (error + previousError)`
computed by `BoapPidGetSample` (boap_pid.c line 73), exposed for stating
properties. -/
def pidIntegralStep (handle : SBoapPid) (pv : ℚ) : ℚ :=
  handle.IntegralGain * handle.SamplingPeriod * (1/2) * ((handle.SetPoint - pv) + handle.PreviousError)

/-- The unbounded output of one `BoapPidGetSample` call: the sum of the
proportional, derivative and (anti-windup-gated) integral branches as built
up in `output` before saturation is applied (boap_pid.c lines 71-89). -/
def pidUnboundedOutput (handle : SBoapPid) (pv : ℚ) : ℚ :=
  handle.ProportionalGain * (handle.SetPoint - pv) +
    -handle.DerivativeGain * (pv - handle.PreviousMeasurement) / handle.SamplingPeriod +
    (handle.RunningSum +
      ZERO_IF_SAME_SIGN (handle.PreviousOutputUnbounded - handle.PreviousOutputBounded)
        (pidIntegralStep handle pv) * pidIntegralStep handle pv)

/-- C1: one call to `BoapPidGetSample` adds the trapezoidal integral step
`ki * ts * 0.5 * (error + previousError)` to the running sum if and only if
`(previousUnbounded - previousBounded) * integralStep ≤ 0`; a strictly
positive product leaves the running sum unchanged (frozen), and a zero
product always accumulates. -/
theorem pid_sample_antiwindup_freeze (p : SBoapPid) (pv : ℚ) :
    ((BoapPidGetSample p pv).1.RunningSum = p.RunningSum + pidIntegralStep p pv ↔
      (p.PreviousOutputUnbounded - p.PreviousOutputBounded) * pidIntegralStep p pv ≤ 0) ∧
    (0 < (p.PreviousOutputUnbounded - p.PreviousOutputBounded) * pidIntegralStep p pv →
      (BoapPidGetSample p pv).1.RunningSum = p.RunningSum) ∧
    ((p.PreviousOutputUnbounded - p.PreviousOutputBounded) * pidIntegralStep p pv = 0 →
      (BoapPidGetSample p pv).1.RunningSum = p.RunningSum + pidIntegralStep p pv) := by
  have hrun : (BoapPidGetSample p pv).1.RunningSum =
      p.RunningSum + ZERO_IF_SAME_SIGN (p.PreviousOutputUnbounded - p.PreviousOutputBounded)
        (pidIntegralStep p pv) * pidIntegralStep p pv := rfl
  set d := p.PreviousOutputUnbounded - p.PreviousOutputBounded with hd
  set s := pidIntegralStep p pv with hs
  rw [hrun]
  unfold ZERO_IF_SAME_SIGN
  by_cases h : d * s ≤ 0
  · refine ⟨by simp [h], fun hpos => absurd hpos (not_lt.mpr h), fun _ => by simp [h]⟩
  · have hpos : 0 < d * s := lt_of_not_le h
    have hsne : s ≠ 0 := by
      intro h0
      rw [h0, mul_zero] at hpos
      exact lt_irrefl 0 hpos
    refine ⟨?_, fun _ => by simp [h], fun h0 => absurd h0 (ne_of_gt hpos)⟩
    constructor
    · intro heq
      rw [if_neg h, zero_mul, add_zero] at heq
      exact absurd (by linarith : s = 0) hsne
    · intro hle
      exact absurd hle h

/-- Witness for C1 at a concrete regulator: right after `BoapPidCreate` the
product is zero, so the first sample accumulates the integral step. -/
theorem pid_sample_antiwindup_freeze_witness :
    (BoapPidGetSample (BoapPidCreate 1 1 1 1 1 10) 0).1.RunningSum =
      (BoapPidCreate 1 1 1 1 1 10).RunningSum + pidIntegralStep (BoapPidCreate 1 1 1 1 1 10) 0 :=
  (pid_sample_antiwindup_freeze (BoapPidCreate 1 1 1 1 1 10) 0).1.mpr
    (by norm_num [BoapPidCreate, pidIntegralStep])

/-- A regulator created with a negative saturation threshold, used to test
the boundary of the C3 saturation claim. -/
def pidNegativeThresholdState : SBoapPid := BoapPidCreate 0 0 0 0 1 (-1)

/-- C3 counterexample: `BoapPidCreate` accepts any saturation threshold, and
for the regulator with threshold `-1` (all gains zero) the sample at
`pv = 0` returns `-1`, whose absolute value `1` exceeds the threshold `-1`.
Hence `|output| ≤ SaturationThreshold` does not hold for every regulator
state. -/
theorem pid_saturation_claim_counterexample :
    ¬ |(BoapPidGetSample pidNegativeThresholdState 0).2| ≤
        pidNegativeThresholdState.SaturationThreshold := by
  norm_num [BoapPidGetSample, pidNegativeThresholdState, BoapPidCreate, ZERO_IF_SAME_SIGN]

/-- C3 (amended with the nonnegativity of the threshold that the
counterexample forces): whenever `0 ≤ SaturationThreshold`, the sample
output satisfies `|output| ≤ SaturationThreshold`; whenever the unbounded
sum of the three branches exceeds the threshold in magnitude the output is
exactly `+threshold` or `-threshold`; the clamped value is stored as
`PreviousOutputBounded` and the unclamped sum as
`PreviousOutputUnbounded`. -/
theorem pid_sample_saturation (p : SBoapPid) (pv : ℚ)
    (hsat : 0 ≤ p.SaturationThreshold) :
    |(BoapPidGetSample p pv).2| ≤ p.SaturationThreshold ∧
    (p.SaturationThreshold < |pidUnboundedOutput p pv| →
      (BoapPidGetSample p pv).2 = p.SaturationThreshold ∨
        (BoapPidGetSample p pv).2 = -p.SaturationThreshold) ∧
    (BoapPidGetSample p pv).1.PreviousOutputBounded = (BoapPidGetSample p pv).2 ∧
    (BoapPidGetSample p pv).1.PreviousOutputUnbounded = pidUnboundedOutput p pv := by
  have hout : (BoapPidGetSample p pv).2 =
      if pidUnboundedOutput p pv > p.SaturationThreshold then p.SaturationThreshold
      else if pidUnboundedOutput p pv < -p.SaturationThreshold then -p.SaturationThreshold
      else pidUnboundedOutput p pv := rfl
  set u := pidUnboundedOutput p pv with hu
  refine ⟨?_, ?_, rfl, rfl⟩
  · rw [hout]
    split_ifs with h1 h2
    · rw [abs_of_nonneg hsat]
    · rw [abs_neg, abs_of_nonneg hsat]
    · push_neg at h1 h2
      exact abs_le.mpr ⟨h2, h1⟩
  · intro hlt
    rw [hout]
    rcases lt_abs.mp hlt with h | h
    · exact Or.inl (if_pos h)
    · have h' : u < -p.SaturationThreshold := by linarith
      have hn : ¬ u > p.SaturationThreshold := by
        push_neg
        linarith
      refine Or.inr ?_
      rw [if_neg hn, if_pos h']

/-- Witness for the amended C3 at a concrete regulator (kp = 1, setpoint 0,
threshold 100, process value 5). -/
theorem pid_sample_saturation_witness :
    |(BoapPidGetSample (BoapPidCreate 0 1 0 0 1 100) 5).2| ≤
      (BoapPidCreate 0 1 0 0 1 100).SaturationThreshold :=
  (pid_sample_saturation (BoapPidCreate 0 1 0 0 1 100) 5
    (by norm_num [BoapPidCreate])).1

/-! ## Moving-average filter (src/plant/components/boap_filter, boap_filter.c)

`struct SBoapFilter` carries the order, ring index, previous average and a
flexible ring buffer of `order` slots, modelled as a `List ℚ`. -/

structure SBoapFilter where
  FilterOrder : ℕ
  RingIndex : ℕ
  PreviousAverage : ℚ
  RingBuffer : List ℚ
  deriving Repr, DecidableEq

/-- `BoapFilterCreate` (boap_filter.c): fails on order 0, otherwise
zero-fills the whole handle (ring buffer, index and average all zero), on
the successful-allocation path. -/
def BoapFilterCreate (filterOrder : ℕ) : Option SBoapFilter :=
  if 0 < filterOrder then
    some { FilterOrder := filterOrder
           RingIndex := 0
           PreviousAverage := 0
           RingBuffer := List.replicate filterOrder 0 }
  else none

/-- `BoapFilterGetSample` (boap_filter.c): new average =
previous average + (input - oldest sample) / order; the oldest slot is
overwritten with the input and the ring index advances modulo the order. -/
def BoapFilterGetSample (handle : SBoapFilter) (inputSample : ℚ) : SBoapFilter × ℚ :=
  let oldestSample := handle.RingBuffer.getD handle.RingIndex 0
  let newAverage := handle.PreviousAverage + (inputSample - oldestSample) / (handle.FilterOrder : ℚ)
  ({ handle with
      PreviousAverage := newAverage
      RingBuffer := handle.RingBuffer.set handle.RingIndex inputSample
      RingIndex := (handle.RingIndex + 1) % handle.FilterOrder },
   newAverage)

/-- `BoapFilterReset` (boap_filter.c): memsets the ring buffer to zero and
resets index and average. -/
def BoapFilterReset (handle : SBoapFilter) : SBoapFilter :=
  { handle with
      RingBuffer := List.replicate handle.FilterOrder 0
      RingIndex := 0
      PreviousAverage := 0 }

/-- Feed a list of input samples through the filter in order, collecting the
output samples. -/
def BoapFilterRun (handle : SBoapFilter) : List ℚ → SBoapFilter × List ℚ
  | [] => (handle, [])
  | x :: xs =>
    let step := BoapFilterGetSample handle x
    let rest := BoapFilterRun step.1 xs
    (rest.1, step.2 :: rest.2)

/-- The zero-filled order-5 filter state produced by `BoapFilterCreate 5`. -/
def filterOrder5Initial : SBoapFilter :=
  { FilterOrder := 5
    RingIndex := 0
    PreviousAverage := 0
    RingBuffer := List.replicate 5 0 }

/-- C7: an order-5 filter starting zero-filled maps the input sequence
[10,10,10,10,10,30] to the output sequence [2,4,6,8,10,14]; and in general
one `BoapFilterGetSample` call returns
previousAverage + (input - oldestRetainedSample) / order, overwrites the
oldest slot with the input, advances the ring index modulo the order, and
stores the returned value as the new previous average. -/
theorem filter_sample_running_mean :
    BoapFilterCreate 5 = some filterOrder5Initial ∧
    (BoapFilterRun filterOrder5Initial [10, 10, 10, 10, 10, 30]).2 =
      [2, 4, 6, 8, 10, 14] ∧
    ∀ (f : SBoapFilter) (input : ℚ),
      (BoapFilterGetSample f input).2 =
          f.PreviousAverage + (input - f.RingBuffer.getD f.RingIndex 0) / (f.FilterOrder : ℚ) ∧
        (BoapFilterGetSample f input).1.RingBuffer = f.RingBuffer.set f.RingIndex input ∧
        (BoapFilterGetSample f input).1.RingIndex = (f.RingIndex + 1) % f.FilterOrder ∧
        (BoapFilterGetSample f input).1.PreviousAverage = (BoapFilterGetSample f input).2 := by
  refine ⟨by norm_num [BoapFilterCreate, filterOrder5Initial], ?_, fun f input => ⟨rfl, rfl, rfl, rfl⟩⟩
  norm_num [BoapFilterRun, BoapFilterGetSample, filterOrder5Initial, List.replicate, List.getD]

/-! ## ACP transport (boap_acp.h / boap_acp.c)

The header is four `u8` fields (`msgId`, `sender`, `receiver`,
`payloadSize`), so `sizeof(SBoapAcpHeader) = 4`; the ESP-NOW link MTU
`ESP_NOW_MAX_DATA_LEN` is 250 bytes.  Queue-full, allocation-failure and
link-send outcomes of the environment are passed in as explicit booleans,
and the effects of a call (enqueue, hook invocations, releases) are
returned in a result structure. -/

def BOAP_ACP_HEADER_SIZE : ℕ := 4

def ESP_NOW_MAX_DATA_LEN : ℕ := 250

def BOAP_ACP_MAX_PAYLOAD_SIZE : ℕ := ESP_NOW_MAX_DATA_LEN - BOAP_ACP_HEADER_SIZE

def BOAP_ACP_MSG_ID_INVALID : ℕ := 0xFF

/-- Number of entries of `s_macAddrLookupTable` (plant, controller, PC). -/
def BOAP_ACP_NUMBER_OF_PEERS : ℕ := 3

/-- An ACP message: the header fields plus the payload buffer.  The stored
`payloadSize` header field equals the length of the payload buffer for
every message built by `BoapAcpMsgCreate`. -/
structure SBoapAcpMsg where
  msgId : ℕ
  sender : ℕ
  receiver : ℕ
  payload : List ℕ
  deriving Repr, DecidableEq

def SBoapAcpMsg.payloadSize (msg : SBoapAcpMsg) : ℕ := msg.payload.length

/-- `BoapAcpMsgCreate` (boap_acp.c): fails unless the payload fits the
transport maximum and the message id is not the reserved invalid id 0xFF;
otherwise allocates (modelled by `allocOk`) and stamps the header, the
sender being the node's own id.  The fresh payload buffer contents are
unspecified in C; zeros here. -/
def BoapAcpMsgCreate (ownNodeId receiver msgId payloadSize : ℕ)
    (allocOk : Bool) : Option SBoapAcpMsg :=
  if payloadSize ≤ BOAP_ACP_MAX_PAYLOAD_SIZE ∧ msgId ≠ BOAP_ACP_MSG_ID_INVALID then
    if allocOk then
      some { msgId := msgId
             sender := ownNodeId
             receiver := receiver
             payload := List.replicate payloadSize 0 }
    else none
  else none

inductive EBoapAcpTxMessageDroppedReason where
  | QueueStarvation
  | EspNowSendFailed
  | MacLayerError
  | InvalidReceiver
  deriving Repr, DecidableEq

inductive EBoapAcpRxMessageDroppedReason where
  | AllocationFailure
  | QueueStarvation
  deriving Repr, DecidableEq

/-- Observable effects of one `BoapAcpMsgSend` call. -/
structure MsgSendResult where
  Enqueued : Option SBoapAcpMsg
  TxHookCalls : List (ℕ × EBoapAcpTxMessageDroppedReason)
  MsgDestroyed : Bool
  deriving Repr, DecidableEq

/-- `BoapAcpMsgSend` (boap_acp.c): a zero-wait `xQueueSend` onto the egress
queue; on queue-full the tx-dropped hook fires (if registered) with reason
QueueStarvation and the message is destroyed. -/
def BoapAcpMsgSend (txQueueFull hookRegistered : Bool) (msg : SBoapAcpMsg) : MsgSendResult :=
  if txQueueFull then
    { Enqueued := none
      TxHookCalls := if hookRegistered then [(msg.receiver, .QueueStarvation)] else []
      MsgDestroyed := true }
  else
    { Enqueued := some msg
      TxHookCalls := []
      MsgDestroyed := false }

/-- Observable effects of the gateway thread processing one message popped
from the egress queue. -/
structure GatewayForwardResult where
  SendAttempts : ℕ
  TxHookCalls : List (ℕ × EBoapAcpTxMessageDroppedReason)
  MsgDestroyCount : ℕ
  deriving Repr, DecidableEq

/-- The per-message body of `BoapAcpGatewayThreadEntryPoint` (boap_acp.c):
validate the receiver id against the peer table, attempt exactly one
`esp_now_send` when valid (outcome `sendOk`), fire the tx-dropped hook with
InvalidReceiver or EspNowSendFailed as appropriate, and always destroy the
message exactly once. -/
def BoapAcpGatewayForwardMsg (hookRegistered sendOk : Bool) (msg : SBoapAcpMsg) :
    GatewayForwardResult :=
  if msg.receiver < BOAP_ACP_NUMBER_OF_PEERS then
    { SendAttempts := 1
      TxHookCalls :=
        if sendOk then []
        else if hookRegistered then [(msg.receiver, .EspNowSendFailed)] else []
      MsgDestroyCount := 1 }
  else
    { SendAttempts := 0
      TxHookCalls := if hookRegistered then [(msg.receiver, .InvalidReceiver)] else []
      MsgDestroyCount := 1 }

/-- Observable effects of the ESP-NOW ingress completion callback. -/
structure ReceiveCallbackResult where
  Enqueued : Option (List ℕ)
  RxHookCalls : List (ℕ × EBoapAcpRxMessageDroppedReason)
  LocalCopyReleased : Bool
  deriving Repr, DecidableEq

/-- Header-field accessors on a raw received byte sequence
(`[msgId][sender][receiver][payloadSize][payload...]`). -/
def frameGetSender (data : List ℕ) : ℕ := data.getD 1 0

def frameGetReceiver (data : List ℕ) : ℕ := data.getD 2 0

def frameGetPayloadSize (data : List ℕ) : ℕ := data.getD 3 0

/-- `BoapAcpEspNowReceiveCallback` (boap_acp.c): silently discard frames
shorter than the header, with a wrong declared size, or addressed to
another node; then allocate a local copy (hook AllocationFailure on
failure), then zero-wait enqueue onto the ingress queue (hook
QueueStarvation and release the copy on failure). -/
def BoapAcpEspNowReceiveCallback (ownNodeId : ℕ)
    (allocOk rxQueueHasSpace hookRegistered : Bool) (data : List ℕ) :
    ReceiveCallbackResult :=
  if data.length < BOAP_ACP_HEADER_SIZE then
    { Enqueued := none, RxHookCalls := [], LocalCopyReleased := false }
  else if data.length ≠ BOAP_ACP_HEADER_SIZE + frameGetPayloadSize data then
    { Enqueued := none, RxHookCalls := [], LocalCopyReleased := false }
  else if frameGetReceiver data ≠ ownNodeId then
    { Enqueued := none, RxHookCalls := [], LocalCopyReleased := false }
  else if ¬ allocOk then
    { Enqueued := none
      RxHookCalls := if hookRegistered then [(frameGetSender data, .AllocationFailure)] else []
      LocalCopyReleased := false }
  else if ¬ rxQueueHasSpace then
    { Enqueued := none
      RxHookCalls := if hookRegistered then [(frameGetSender data, .QueueStarvation)] else []
      LocalCopyReleased := true }
  else
    { Enqueued := some data, RxHookCalls := [], LocalCopyReleased := false }

/-- C10: `BoapAcpMsgCreate` fails not only when the payload exceeds the
transport maximum but also when the requested message kind is the reserved
invalid id 0xFF; consequently no successfully created message carries kind
0xFF. -/
theorem msg_create_rejects_invalid_id (ownNodeId receiver msgId payloadSize : ℕ)
    (allocOk : Bool) :
    (msgId = BOAP_ACP_MSG_ID_INVALID →
      BoapAcpMsgCreate ownNodeId receiver msgId payloadSize allocOk = none) ∧
    (BOAP_ACP_MAX_PAYLOAD_SIZE < payloadSize →
      BoapAcpMsgCreate ownNodeId receiver msgId payloadSize allocOk = none) ∧
    ∀ m, BoapAcpMsgCreate ownNodeId receiver msgId payloadSize allocOk = some m →
      m.msgId ≠ BOAP_ACP_MSG_ID_INVALID := by
  refine ⟨fun h => by simp [BoapAcpMsgCreate, h], fun h => by simp [BoapAcpMsgCreate, not_le.mpr h],
    fun m hm => ?_⟩
  unfold BoapAcpMsgCreate at hm
  split at hm
  case isTrue hc =>
    split at hm
    · have h := Option.some.inj hm
      subst h
      exact hc.2
    · exact absurd hm (by simp)
  case isFalse hc => exact absurd hm (by simp)

/-- Witness for C10: creating a message with the reserved kind 0xFF fails
even for a valid receiver, in-range payload size and successful
allocation. -/
theorem msg_create_rejects_invalid_id_witness :
    BoapAcpMsgCreate 0 1 BOAP_ACP_MSG_ID_INVALID 8 true = none :=
  (msg_create_rejects_invalid_id 0 1 BOAP_ACP_MSG_ID_INVALID 8 true).1 rfl

/-- C6: `BoapAcpMsgSend` into a full egress queue fires the tx-dropped hook
(when registered) exactly once with reason QueueStarvation, enqueues
nothing and destroys the message; a successful zero-wait enqueue fires no
hook and does not destroy the message in the caller's context. -/
theorem msg_send_queue_starvation (msg : SBoapAcpMsg) (hookRegistered : Bool) :
    (BoapAcpMsgSend true hookRegistered msg).Enqueued = none ∧
    (BoapAcpMsgSend true hookRegistered msg).MsgDestroyed = true ∧
    (hookRegistered = true →
      (BoapAcpMsgSend true hookRegistered msg).TxHookCalls =
        [(msg.receiver, EBoapAcpTxMessageDroppedReason.QueueStarvation)]) ∧
    (BoapAcpMsgSend false hookRegistered msg).Enqueued = some msg ∧
    (BoapAcpMsgSend false hookRegistered msg).TxHookCalls = [] ∧
    (BoapAcpMsgSend false hookRegistered msg).MsgDestroyed = false := by
  cases hookRegistered <;> simp [BoapAcpMsgSend]

/-- A concrete message used by the transport witnesses. -/
def sampleTraceMsg : SBoapAcpMsg :=
  { msgId := 1, sender := 0, receiver := 2, payload := [7, 7] }

/-- Witness for C6 at a concrete message with the hook registered. -/
theorem msg_send_queue_starvation_witness :
    (BoapAcpMsgSend true true sampleTraceMsg).TxHookCalls =
      [(2, EBoapAcpTxMessageDroppedReason.QueueStarvation)] :=
  (msg_send_queue_starvation sampleTraceMsg true).2.2.1 rfl

/-- C5: the gateway task attempts no link send for a receiver id outside
the peer table and fires InvalidReceiver instead; for a known receiver it
attempts exactly one link send, firing EspNowSendFailed on failure and
nothing on success; and the message is destroyed exactly once in every
case. -/
theorem gateway_forward_at_most_once (msg : SBoapAcpMsg) (hookRegistered sendOk : Bool) :
    (BOAP_ACP_NUMBER_OF_PEERS ≤ msg.receiver →
      (BoapAcpGatewayForwardMsg hookRegistered sendOk msg).SendAttempts = 0 ∧
      (hookRegistered = true →
        (BoapAcpGatewayForwardMsg hookRegistered sendOk msg).TxHookCalls =
          [(msg.receiver, EBoapAcpTxMessageDroppedReason.InvalidReceiver)])) ∧
    (msg.receiver < BOAP_ACP_NUMBER_OF_PEERS →
      (BoapAcpGatewayForwardMsg hookRegistered sendOk msg).SendAttempts = 1 ∧
      (sendOk = false → hookRegistered = true →
        (BoapAcpGatewayForwardMsg hookRegistered sendOk msg).TxHookCalls =
          [(msg.receiver, EBoapAcpTxMessageDroppedReason.EspNowSendFailed)]) ∧
      (sendOk = true →
        (BoapAcpGatewayForwardMsg hookRegistered sendOk msg).TxHookCalls = [])) ∧
    (BoapAcpGatewayForwardMsg hookRegistered sendOk msg).MsgDestroyCount = 1 := by
  unfold BoapAcpGatewayForwardMsg
  by_cases h : msg.receiver < BOAP_ACP_NUMBER_OF_PEERS
  · rw [if_pos h]
    refine ⟨fun hle => absurd h (not_lt.mpr hle), fun _ => ⟨rfl, ?_, ?_⟩, rfl⟩
    · intro hs hr
      subst hs
      subst hr
      rfl
    · intro hs
      subst hs
      rfl
  · rw [if_neg h]
    exact ⟨fun _ => ⟨rfl, fun hr => by subst hr; rfl⟩, fun hlt => absurd hlt h, rfl⟩

/-- Witness for C5: a message addressed to the unknown receiver id 7 is not
sent but is destroyed exactly once. -/
theorem gateway_forward_at_most_once_witness :
    (BoapAcpGatewayForwardMsg true true
        { msgId := 1, sender := 0, receiver := 7, payload := [] }).SendAttempts = 0 ∧
    (BoapAcpGatewayForwardMsg true true
        { msgId := 1, sender := 0, receiver := 7, payload := [] }).MsgDestroyCount = 1 :=
  ⟨((gateway_forward_at_most_once
      { msgId := 1, sender := 0, receiver := 7, payload := [] } true true).1 (by decide)).1,
    (gateway_forward_at_most_once
      { msgId := 1, sender := 0, receiver := 7, payload := [] } true true).2.2⟩

/-- C4: the ingress completion callback never enqueues a frame that is
shorter than the header, has a wrong declared payload length, or is
addressed to another node; such frames are silently discarded without any
rx-drop hook, and every hook invocation carries reason AllocationFailure
(the local copy could not be allocated) or QueueStarvation (ingress queue
full, with the local copy released). -/
theorem receive_callback_validation (ownNodeId : ℕ)
    (allocOk rxQueueHasSpace hookRegistered : Bool) (data : List ℕ) :
    (∀ d, (BoapAcpEspNowReceiveCallback ownNodeId allocOk rxQueueHasSpace
        hookRegistered data).Enqueued = some d →
      d = data ∧ BOAP_ACP_HEADER_SIZE ≤ data.length ∧
        data.length = BOAP_ACP_HEADER_SIZE + frameGetPayloadSize data ∧
        frameGetReceiver data = ownNodeId) ∧
    (data.length < BOAP_ACP_HEADER_SIZE ∨
        data.length ≠ BOAP_ACP_HEADER_SIZE + frameGetPayloadSize data ∨
        frameGetReceiver data ≠ ownNodeId →
      (BoapAcpEspNowReceiveCallback ownNodeId allocOk rxQueueHasSpace
          hookRegistered data).Enqueued = none ∧
      (BoapAcpEspNowReceiveCallback ownNodeId allocOk rxQueueHasSpace
          hookRegistered data).RxHookCalls = []) ∧
    ∀ c ∈ (BoapAcpEspNowReceiveCallback ownNodeId allocOk rxQueueHasSpace
        hookRegistered data).RxHookCalls,
      (c = (frameGetSender data, EBoapAcpRxMessageDroppedReason.AllocationFailure) ∧
        allocOk = false) ∨
      (c = (frameGetSender data, EBoapAcpRxMessageDroppedReason.QueueStarvation) ∧
        rxQueueHasSpace = false ∧
        (BoapAcpEspNowReceiveCallback ownNodeId allocOk rxQueueHasSpace
            hookRegistered data).LocalCopyReleased = true) := by
  unfold BoapAcpEspNowReceiveCallback
  split_ifs with h1 h2 h3 h4 h5 <;>
    cases hookRegistered <;>
      simp_all [not_lt, not_le]

/-- Witness for C4: the empty frame (shorter than the header) is discarded
with no enqueue and no hook. -/
theorem receive_callback_validation_witness :
    (BoapAcpEspNowReceiveCallback 0 true true true []).Enqueued = none ∧
    (BoapAcpEspNowReceiveCallback 0 true true true []).RxHookCalls = [] :=
  (receive_callback_validation 0 true true true []).2.1 (Or.inl (by decide))

/-! ## Memory service (boap_mem.c) and event dispatcher (boap_event.c)

`BoapMemUnref` branches on `xPortInIsrContext()`: from ISR context it
asserts a deferred-unref hook is registered and routes the block to it;
otherwise it frees synchronously.  `BoapEventDeferMemoryUnref` wraps
`BoapEventSend(DeferredMemoryUnref, block)` in an assert. -/

inductive EBoapRet where
  | Ok
  | Error
  | InvalidParams
  deriving Repr, DecidableEq

/-- The three possible outcomes of a `BoapMemUnref` call. -/
inductive EBoapMemUnrefOutcome where
  | FreedSynchronously
  | RoutedToIsrHook
  | AssertionFailed
  deriving Repr, DecidableEq

/-- `BoapMemUnref` (boap_mem.c): from ISR context, assert the ISR-unref
hook is registered and route the block through it; from task context, free
synchronously. -/
def BoapMemUnref (inIsrContext isrUnrefHookRegistered : Bool) : EBoapMemUnrefOutcome :=
  if inIsrContext then
    if isrUnrefHookRegistered then .RoutedToIsrHook else .AssertionFailed
  else .FreedSynchronously

/-- `BoapEventSend` (boap_event.c): a non-blocking enqueue of the event
onto the dispatcher's queue, failing when the queue is full. -/
def BoapEventSend (eventQueueHasSpace : Bool) : EBoapRet :=
  if eventQueueHasSpace then .Ok else .Error

/-- `BoapEventDeferMemoryUnref` (boap_event.c lines 113-117): asserts that
enqueueing the DeferredMemoryUnref event succeeded; `none` models the
assertion firing. -/
def BoapEventDeferMemoryUnref (eventQueueHasSpace : Bool) : Option Unit :=
  if BoapEventSend eventQueueHasSpace = EBoapRet.Ok then some () else none

/-- C9: a release from interrupt-like context is routed to the registered
deferred-release hook, and is a fatal assertion failure when no hook is
registered (it is never freed synchronously from that context); the
deferred-release convenience path asserts that enqueueing the deferred-free
event succeeded, so it does not fail when the event queue accepts the
event. -/
theorem mem_unref_isr_routing :
    BoapMemUnref true true = EBoapMemUnrefOutcome.RoutedToIsrHook ∧
    BoapMemUnref true false = EBoapMemUnrefOutcome.AssertionFailed ∧
    (∀ hookRegistered : Bool,
      BoapMemUnref true hookRegistered ≠ EBoapMemUnrefOutcome.FreedSynchronously) ∧
    (∀ hookRegistered : Bool,
      BoapMemUnref false hookRegistered = EBoapMemUnrefOutcome.FreedSynchronously) ∧
    BoapEventDeferMemoryUnref true = some () ∧
    BoapEventDeferMemoryUnref false = none := by
  refine ⟨rfl, rfl, fun hook => ?_, fun hook => rfl, rfl, rfl⟩
  cases hook <;> simp [BoapMemUnref]

/-- Witness for C9: with a hook registered, an ISR-context release is not a
synchronous free. -/
theorem mem_unref_isr_routing_witness :
    BoapMemUnref true true ≠ EBoapMemUnrefOutcome.FreedSynchronously :=
  mem_unref_isr_routing.2.2.1 true

/-! ## Control service (src/plant/components/boap_control/boap_control.c)

The per-tick handler `BoapControlHandleTimerExpired` operates on the
current axis: its touchscreen context (the miss counter and last unfiltered
position), its filter, its PID regulator and its servo, plus the trace
bookkeeping shared between the two half-cycles.  A touchscreen read is
modelled as `Option ℚ` (`none` = no contact); the servo command issued
during the tick is returned as an effect. -/

inductive EBoapAxis where
  | X
  | Y
  deriving Repr, DecidableEq

/-- `s_currentStateAxis = !s_currentStateAxis` of
`BoapControlStateTransition`. -/
def EBoapAxis.other : EBoapAxis → EBoapAxis
  | .X => .Y
  | .Y => .X

/-- Modulus of the 32-bit unsigned type `u32` of boap_common.h: `u32`
arithmetic such as the `noTouchCounter[axis]++` of the tick handler wraps
modulo `2 ^ 32`. -/
def U32_MOD : ℕ := 2 ^ 32

/-- `MM_TO_M` from boap_common.h line 64. -/
def MM_TO_M (millim : ℚ) : ℚ := millim / 1000

/-- `M_TO_MM` from boap_common.h line 65. -/
def M_TO_MM (meters : ℚ) : ℚ := meters * 1000

/-- Per-axis control state: the `SBoapControlStateContext` members that
carry state (filter, PID) together with that axis's entries of the static
`noTouchCounter` (a `u32`, kept below `U32_MOD`) and
`unfilteredPositionMm` arrays. -/
structure SBoapControlAxisState where
  Filter : SBoapFilter
  Pid : SBoapPid
  NoTouchCounter : ℕ
  UnfilteredPositionMm : ℚ
  deriving Repr, DecidableEq

/-- The mutable state read and written by `BoapControlHandleTimerExpired`:
both axis contexts, the current axis, the derived no-touch tolerance, the
X-axis trace context statics and the global trace-enable flag. -/
structure SBoapControlState where
  AxisX : SBoapControlAxisState
  AxisY : SBoapControlAxisState
  CurrentStateAxis : EBoapAxis
  NoTouchToleranceSamples : ℕ
  XPositionAsserted : Bool
  XPositionFilteredMm : ℚ
  XSetpointMm : ℚ
  BallTraceEnable : Bool
  deriving Repr, DecidableEq

def SBoapControlState.axisState (s : SBoapControlState) : EBoapAxis → SBoapControlAxisState
  | .X => s.AxisX
  | .Y => s.AxisY

def SBoapControlState.setAxisState (s : SBoapControlState) :
    EBoapAxis → SBoapControlAxisState → SBoapControlState
  | .X, a => { s with AxisX := a }
  | .Y, a => { s with AxisY := a }

/-- Externally visible effects of one timer tick: which axis's servo was
commanded, the commanded angle, and whether a ball-trace message was
sent. -/
structure SBoapControlTickEffects where
  ServoAxis : EBoapAxis
  ServoAngleRad : ℚ
  TraceSent : Bool
  deriving Repr, DecidableEq

/-- `BoapControlHandleTimerExpired` (boap_control.c lines 326-405): update
the current axis's miss counter from the reading (the `u32` increment
wrapping modulo `U32_MOD`), run the filter → PID → servo pipeline when the
reading is valid or the counter is still below the tolerance, otherwise
command the servo to angle 0 and reset that axis's filter and PID; finally
toggle the current axis. -/
def BoapControlHandleTimerExpired (s : SBoapControlState)
    (touchscreenReading : Option ℚ) : SBoapControlState × SBoapControlTickEffects :=
  let axis := s.CurrentStateAxis
  let ctx := s.axisState axis
  let ctx1 :=
    match touchscreenReading with
    | none => { ctx with NoTouchCounter := (ctx.NoTouchCounter + 1) % U32_MOD }
    | some position => { ctx with NoTouchCounter := 0, UnfilteredPositionMm := position }
  if touchscreenReading.isSome ∨ ctx1.NoTouchCounter < s.NoTouchToleranceSamples then
    let filterStep := BoapFilterGetSample ctx1.Filter ctx1.UnfilteredPositionMm
    let pidStep := BoapPidGetSample ctx1.Pid (MM_TO_M filterStep.2)
    let traceSent := axis == EBoapAxis.Y && s.XPositionAsserted && s.BallTraceEnable
    let s1 := s.setAxisState axis { ctx1 with Filter := filterStep.1, Pid := pidStep.1 }
    ({ s1 with
        XPositionFilteredMm := filterStep.2
        XPositionAsserted := true
        XSetpointMm := M_TO_MM s1.AxisX.Pid.SetPoint
        CurrentStateAxis := axis.other },
     { ServoAxis := axis, ServoAngleRad := pidStep.2, TraceSent := traceSent })
  else
    let s1 := s.setAxisState axis
      { ctx1 with Filter := BoapFilterReset ctx1.Filter, Pid := BoapPidReset ctx1.Pid }
    ({ s1 with XPositionAsserted := false, CurrentStateAxis := axis.other },
     { ServoAxis := axis, ServoAngleRad := 0, TraceSent := false })

/-- C2: on each tick for the current axis, an invalid reading increments
that axis's miss counter (the `u32` increment, wrapping modulo `2 ^ 32`)
and leaves the stored unfiltered position unchanged, a valid reading
resets the counter and stores the position; the filter → PID → actuator
pipeline runs on the (possibly stale) unfiltered position whenever the
reading is valid or the counter is below the tolerance; otherwise —
exactly once the counter reaches the tolerance, not before — the servo is
commanded to angle 0 and that axis's filter and PID are reset; and the
current axis toggles unconditionally. -/
theorem control_tick_no_touch_policy (s : SBoapControlState) (reading : Option ℚ) :
    (BoapControlHandleTimerExpired s reading).1.CurrentStateAxis = s.CurrentStateAxis.other ∧
    (BoapControlHandleTimerExpired s reading).2.ServoAxis = s.CurrentStateAxis ∧
    (reading = none →
      ((BoapControlHandleTimerExpired s reading).1.axisState s.CurrentStateAxis).NoTouchCounter =
          ((s.axisState s.CurrentStateAxis).NoTouchCounter + 1) % U32_MOD ∧
      ((BoapControlHandleTimerExpired s reading).1.axisState
          s.CurrentStateAxis).UnfilteredPositionMm =
        (s.axisState s.CurrentStateAxis).UnfilteredPositionMm) ∧
    (∀ p, reading = some p →
      ((BoapControlHandleTimerExpired s reading).1.axisState s.CurrentStateAxis).NoTouchCounter =
          0 ∧
      ((BoapControlHandleTimerExpired s reading).1.axisState
          s.CurrentStateAxis).UnfilteredPositionMm = p) ∧
    (reading.isSome = true ∨
        ((s.axisState s.CurrentStateAxis).NoTouchCounter + 1) % U32_MOD <
          s.NoTouchToleranceSamples →
      (BoapControlHandleTimerExpired s reading).2.ServoAngleRad =
          (BoapPidGetSample (s.axisState s.CurrentStateAxis).Pid
            (MM_TO_M (BoapFilterGetSample (s.axisState s.CurrentStateAxis).Filter
              (reading.getD (s.axisState s.CurrentStateAxis).UnfilteredPositionMm)).2)).2 ∧
      ((BoapControlHandleTimerExpired s reading).1.axisState s.CurrentStateAxis).Filter =
          (BoapFilterGetSample (s.axisState s.CurrentStateAxis).Filter
            (reading.getD (s.axisState s.CurrentStateAxis).UnfilteredPositionMm)).1 ∧
      ((BoapControlHandleTimerExpired s reading).1.axisState s.CurrentStateAxis).Pid =
          (BoapPidGetSample (s.axisState s.CurrentStateAxis).Pid
            (MM_TO_M (BoapFilterGetSample (s.axisState s.CurrentStateAxis).Filter
              (reading.getD (s.axisState s.CurrentStateAxis).UnfilteredPositionMm)).2)).1) ∧
    (reading = none →
      s.NoTouchToleranceSamples ≤
        ((s.axisState s.CurrentStateAxis).NoTouchCounter + 1) % U32_MOD →
      (BoapControlHandleTimerExpired s reading).2.ServoAngleRad = 0 ∧
      ((BoapControlHandleTimerExpired s reading).1.axisState s.CurrentStateAxis).Filter =
          BoapFilterReset (s.axisState s.CurrentStateAxis).Filter ∧
      ((BoapControlHandleTimerExpired s reading).1.axisState s.CurrentStateAxis).Pid =
          BoapPidReset (s.axisState s.CurrentStateAxis).Pid) := by
  obtain ⟨ax, ay, cur, tol, xpa, xpf, xsp, bte⟩ := s
  cases cur <;> rcases reading with _ | p
  case X.none =>
    by_cases h : (ax.NoTouchCounter + 1) % U32_MOD < tol
    · have h' : ¬ tol ≤ (ax.NoTouchCounter + 1) % U32_MOD := by omega
      simp [BoapControlHandleTimerExpired, SBoapControlState.axisState,
        SBoapControlState.setAxisState, EBoapAxis.other, h, h']
    · simp [BoapControlHandleTimerExpired, SBoapControlState.axisState,
        SBoapControlState.setAxisState, EBoapAxis.other, h]
  case X.some =>
    simp [BoapControlHandleTimerExpired, SBoapControlState.axisState,
      SBoapControlState.setAxisState, EBoapAxis.other]
  case Y.none =>
    by_cases h : (ay.NoTouchCounter + 1) % U32_MOD < tol
    · have h' : ¬ tol ≤ (ay.NoTouchCounter + 1) % U32_MOD := by omega
      simp [BoapControlHandleTimerExpired, SBoapControlState.axisState,
        SBoapControlState.setAxisState, EBoapAxis.other, h, h']
    · simp [BoapControlHandleTimerExpired, SBoapControlState.axisState,
        SBoapControlState.setAxisState, EBoapAxis.other, h]
  case Y.some =>
    simp [BoapControlHandleTimerExpired, SBoapControlState.axisState,
      SBoapControlState.setAxisState, EBoapAxis.other]

/-- A concrete control state used by the tick witness: tolerance of one
sample, all counters zero, currently sampling the X axis. -/
def controlWitnessState : SBoapControlState :=
  { AxisX :=
      { Filter := filterOrder5Initial
        Pid := BoapPidCreate 0 1 0 0 1 1
        NoTouchCounter := 0
        UnfilteredPositionMm := 0 }
    AxisY :=
      { Filter := filterOrder5Initial
        Pid := BoapPidCreate 0 1 0 0 1 1
        NoTouchCounter := 0
        UnfilteredPositionMm := 0 }
    CurrentStateAxis := EBoapAxis.X
    NoTouchToleranceSamples := 1
    XPositionAsserted := false
    XPositionFilteredMm := 0
    XSetpointMm := 0
    BallTraceEnable := true }

/-- Witness for C2: with tolerance 1 and a fresh miss counter, a single
invalid reading already commands the servo to the neutral angle 0. -/
theorem control_tick_no_touch_policy_witness :
    (BoapControlHandleTimerExpired controlWitnessState none).2.ServoAngleRad = 0 :=
  ((control_tick_no_touch_policy controlWitnessState none).2.2.2.2.2 rfl (by decide)).1

/-! ## PID-settings request handlers (boap_control.c lines 559-633)

`BOAP_AXIS_VALID` from boap_common.h line 72 checks the raw axis id
carried in the payload against the two `EBoapAxis` enumerators.  Only the
two PID regulators of `s_stateContexts` are touched by these handlers, so
the modelled state is that pair. -/

def BOAP_AXIS_VALID (axisId : ℕ) : Bool := axisId == 0 || axisId == 1

structure SBoapAcpGetPidSettingsReq where
  AxisId : ℕ
  deriving Repr, DecidableEq

structure SBoapAcpGetPidSettingsResp where
  AxisId : ℕ
  ProportionalGain : ℚ
  IntegralGain : ℚ
  DerivativeGain : ℚ
  deriving Repr, DecidableEq

structure SBoapAcpSetPidSettingsReq where
  AxisId : ℕ
  ProportionalGain : ℚ
  IntegralGain : ℚ
  DerivativeGain : ℚ
  deriving Repr, DecidableEq

structure SBoapAcpSetPidSettingsResp where
  AxisId : ℕ
  OldProportionalGain : ℚ
  OldIntegralGain : ℚ
  OldDerivativeGain : ℚ
  NewProportionalGain : ℚ
  NewIntegralGain : ℚ
  NewDerivativeGain : ℚ
  deriving Repr, DecidableEq

/-- The two PID regulators of `s_stateContexts`, indexed by raw axis id as
`s_stateContexts[reqPayload->AxisId].Pid` is. -/
structure SBoapControlPidContexts where
  PidX : SBoapPid
  PidY : SBoapPid
  deriving Repr, DecidableEq

def SBoapControlPidContexts.pidAt (c : SBoapControlPidContexts) (axisId : ℕ) : SBoapPid :=
  if axisId = 0 then c.PidX else c.PidY

def SBoapControlPidContexts.setPidAt (c : SBoapControlPidContexts) (axisId : ℕ)
    (p : SBoapPid) : SBoapControlPidContexts :=
  if axisId = 0 then { c with PidX := p } else { c with PidY := p }

/-- Observable effects of `BoapControlHandleGetPidSettingsReq`. -/
structure GetPidSettingsResult where
  Response : Option SBoapAcpGetPidSettingsResp
  LoggedInvalidAxis : Bool
  RequestDestroyed : Bool
  deriving Repr, DecidableEq

/-- `BoapControlHandleGetPidSettingsReq` (boap_control.c lines 559-589):
validate the axis id, reply with the addressed axis's gains when the
response message can be allocated, log and send nothing on an invalid
axis, and destroy the request in all cases. -/
def BoapControlHandleGetPidSettingsReq (pids : SBoapControlPidContexts)
    (req : SBoapAcpGetPidSettingsReq) (respAllocOk : Bool) : GetPidSettingsResult :=
  if BOAP_AXIS_VALID req.AxisId then
    if respAllocOk then
      { Response := some
          { AxisId := req.AxisId
            ProportionalGain := (pids.pidAt req.AxisId).ProportionalGain
            IntegralGain := (pids.pidAt req.AxisId).IntegralGain
            DerivativeGain := (pids.pidAt req.AxisId).DerivativeGain }
        LoggedInvalidAxis := false
        RequestDestroyed := true }
    else
      { Response := none, LoggedInvalidAxis := false, RequestDestroyed := true }
  else
    { Response := none, LoggedInvalidAxis := true, RequestDestroyed := true }

/-- Observable effects of `BoapControlHandleSetPidSettingsReq`, including
the possibly mutated pair of regulators. -/
structure SetPidSettingsResult where
  Pids : SBoapControlPidContexts
  Response : Option SBoapAcpSetPidSettingsResp
  LoggedInvalidAxis : Bool
  RequestDestroyed : Bool
  deriving Repr, DecidableEq

/-- `BoapControlHandleSetPidSettingsReq` (boap_control.c lines 591-633):
validate the axis id; when valid, install the three new gains on the
addressed axis's regulator and reply with the old and new values (when the
response message can be allocated); when invalid, log and touch nothing;
destroy the request in all cases. -/
def BoapControlHandleSetPidSettingsReq (pids : SBoapControlPidContexts)
    (req : SBoapAcpSetPidSettingsReq) (respAllocOk : Bool) : SetPidSettingsResult :=
  if BOAP_AXIS_VALID req.AxisId then
    let oldPid := pids.pidAt req.AxisId
    { Pids := pids.setPidAt req.AxisId
        { oldPid with
            ProportionalGain := req.ProportionalGain
            IntegralGain := req.IntegralGain
            DerivativeGain := req.DerivativeGain }
      Response :=
        if respAllocOk then
          some { AxisId := req.AxisId
                 OldProportionalGain := oldPid.ProportionalGain
                 OldIntegralGain := oldPid.IntegralGain
                 OldDerivativeGain := oldPid.DerivativeGain
                 NewProportionalGain := req.ProportionalGain
                 NewIntegralGain := req.IntegralGain
                 NewDerivativeGain := req.DerivativeGain }
        else none
      LoggedInvalidAxis := false
      RequestDestroyed := true }
  else
    { Pids := pids, Response := none, LoggedInvalidAxis := true, RequestDestroyed := true }

/-- C8: for both the get- and set-PID-settings handlers, an axis id other
than X (0) or Y (1) is logged and silently ignored — no regulator is read
or mutated and no reply is sent — while a valid axis id reads/mutates the
addressed regulator and (when the response allocates) replies with the old
and, for set, new gains; the request is destroyed in every case. -/
theorem pid_settings_axis_validation (pids : SBoapControlPidContexts)
    (reqGet : SBoapAcpGetPidSettingsReq) (reqSet : SBoapAcpSetPidSettingsReq)
    (respAllocOk : Bool) :
    (BOAP_AXIS_VALID reqGet.AxisId = false →
      (BoapControlHandleGetPidSettingsReq pids reqGet respAllocOk).Response = none ∧
      (BoapControlHandleGetPidSettingsReq pids reqGet respAllocOk).LoggedInvalidAxis = true) ∧
    (BOAP_AXIS_VALID reqSet.AxisId = false →
      (BoapControlHandleSetPidSettingsReq pids reqSet respAllocOk).Pids = pids ∧
      (BoapControlHandleSetPidSettingsReq pids reqSet respAllocOk).Response = none ∧
      (BoapControlHandleSetPidSettingsReq pids reqSet respAllocOk).LoggedInvalidAxis = true) ∧
    (BOAP_AXIS_VALID reqGet.AxisId = true → respAllocOk = true →
      (BoapControlHandleGetPidSettingsReq pids reqGet respAllocOk).Response = some
        { AxisId := reqGet.AxisId
          ProportionalGain := (pids.pidAt reqGet.AxisId).ProportionalGain
          IntegralGain := (pids.pidAt reqGet.AxisId).IntegralGain
          DerivativeGain := (pids.pidAt reqGet.AxisId).DerivativeGain }) ∧
    (BOAP_AXIS_VALID reqSet.AxisId = true →
      ((BoapControlHandleSetPidSettingsReq pids reqSet respAllocOk).Pids.pidAt
          reqSet.AxisId).ProportionalGain = reqSet.ProportionalGain ∧
      ((BoapControlHandleSetPidSettingsReq pids reqSet respAllocOk).Pids.pidAt
          reqSet.AxisId).IntegralGain = reqSet.IntegralGain ∧
      ((BoapControlHandleSetPidSettingsReq pids reqSet respAllocOk).Pids.pidAt
          reqSet.AxisId).DerivativeGain = reqSet.DerivativeGain ∧
      (respAllocOk = true →
        (BoapControlHandleSetPidSettingsReq pids reqSet respAllocOk).Response = some
          { AxisId := reqSet.AxisId
            OldProportionalGain := (pids.pidAt reqSet.AxisId).ProportionalGain
            OldIntegralGain := (pids.pidAt reqSet.AxisId).IntegralGain
            OldDerivativeGain := (pids.pidAt reqSet.AxisId).DerivativeGain
            NewProportionalGain := reqSet.ProportionalGain
            NewIntegralGain := reqSet.IntegralGain
            NewDerivativeGain := reqSet.DerivativeGain })) ∧
    (BoapControlHandleGetPidSettingsReq pids reqGet respAllocOk).RequestDestroyed = true ∧
    (BoapControlHandleSetPidSettingsReq pids reqSet respAllocOk).RequestDestroyed = true := by
  refine ⟨fun hv => ?_, fun hv => ?_, fun hv ha => ?_, fun hv => ?_, ?_, ?_⟩
  · simp [BoapControlHandleGetPidSettingsReq, hv]
  · simp [BoapControlHandleSetPidSettingsReq, hv]
  · subst ha
    simp [BoapControlHandleGetPidSettingsReq, hv]
  · have hx : reqSet.AxisId = 0 ∨ reqSet.AxisId = 1 := by
      simpa [BOAP_AXIS_VALID] using hv
    cases respAllocOk <;> rcases hx with h0 | h0 <;>
      simp [BoapControlHandleSetPidSettingsReq, BOAP_AXIS_VALID,
        SBoapControlPidContexts.pidAt, SBoapControlPidContexts.setPidAt, h0]
  · unfold BoapControlHandleGetPidSettingsReq
    split_ifs <;> rfl
  · unfold BoapControlHandleSetPidSettingsReq
    split_ifs <;> rfl

/-- Witness for C8: a request addressed to axis id 2 is ignored by the
set-handler (regulators untouched, no reply) and the request destroyed. -/
theorem pid_settings_axis_validation_witness :
    (BoapControlHandleSetPidSettingsReq
        { PidX := BoapPidCreate 0 1 0 0 1 1, PidY := BoapPidCreate 0 1 0 0 1 1 }
        { AxisId := 2, ProportionalGain := 5, IntegralGain := 5, DerivativeGain := 5 }
        true).Pids =
      { PidX := BoapPidCreate 0 1 0 0 1 1, PidY := BoapPidCreate 0 1 0 0 1 1 } ∧
    (BoapControlHandleSetPidSettingsReq
        { PidX := BoapPidCreate 0 1 0 0 1 1, PidY := BoapPidCreate 0 1 0 0 1 1 }
        { AxisId := 2, ProportionalGain := 5, IntegralGain := 5, DerivativeGain := 5 }
        true).Response = none :=
  ⟨((pid_settings_axis_validation
      { PidX := BoapPidCreate 0 1 0 0 1 1, PidY := BoapPidCreate 0 1 0 0 1 1 }
      { AxisId := 0 }
      { AxisId := 2, ProportionalGain := 5, IntegralGain := 5, DerivativeGain := 5 }
      true).2.1 rfl).1,
    ((pid_settings_axis_validation
      { PidX := BoapPidCreate 0 1 0 0 1 1, PidY := BoapPidCreate 0 1 0 0 1 1 }
      { AxisId := 0 }
      { AxisId := 2, ProportionalGain := 5, IntegralGain := 5, DerivativeGain := 5 }
      true).2.1 rfl).2.1⟩

end Boap
